import Mathlib

/-!
Shallow embedding of `src/app/static/script.js` — the browser-side handler for
a housing-price estimation page.  Numbers are modelled as `ℚ` together with an
explicit NaN (`JSNum`), strings as Lean `String`, JSON values as `JSVal`, the
page's mutable elements as `PageState`, and each event handler as a total
function from the DOM inputs, the current page state and the outcome of its
single `fetch` call to the next page state together with the request it issued.
Thrown-and-caught JS exceptions become `Except String`.
-/

namespace RealEstateUI

/-- Model of a JS number: either NaN or a rational value (the scripts only
ever produce finite values or NaN, never infinities). -/
inductive JSNum where
  | nan : JSNum
  | num (q : ℚ) : JSNum
deriving DecidableEq

/-- Model of a JSON/JS data value as it appears in request and response
bodies.  `num` carries a `JSNum` so that NaN (which arises from failed
parses of input fields) can live in a request object. -/
inductive JSVal where
  | null : JSVal
  | bool (b : Bool) : JSVal
  | num (x : JSNum) : JSVal
  | str (s : String) : JSVal
  | arr (elems : List JSVal) : JSVal
  | obj (fields : List (String × JSVal)) : JSVal

/-- Numeric value of a list of decimal digit characters. -/
def digitsToNat (cs : List Char) : Nat :=
  cs.foldl (fun a c => a * 10 + (c.toNat - 48)) 0

/-- JS whitespace test for the leading-whitespace skipping of
`parseFloat` / `parseInt`. -/
def isWS (c : Char) : Bool :=
  c = ' ' || c = '\t' || c = '\n' || c = '\r'

/-- Model of the JS builtin `parseFloat` restricted to plain decimal
literals: skip leading whitespace, optional sign, integer digits, optional
fractional digits; trailing garbage is ignored; when no digit is found
(e.g. the empty string) the result is NaN.  Exponent notation is not
modelled; no claim depends on it. -/
def parseFloatJS (s : String) : JSNum :=
  let cs := s.toList.dropWhile isWS
  let sgn : ℚ := match cs with
    | '-' :: _ => -1
    | _ => 1
  let cs1 : List Char := match cs with
    | '-' :: r => r
    | '+' :: r => r
    | _ => cs
  let ip := cs1.takeWhile Char.isDigit
  let r1 := cs1.dropWhile Char.isDigit
  let fp : List Char := match r1 with
    | '.' :: r2 => r2.takeWhile Char.isDigit
    | _ => []
  if ip.isEmpty && fp.isEmpty then JSNum.nan
  else JSNum.num (sgn * ((digitsToNat ip : ℚ) + (digitsToNat fp : ℚ) / (10 : ℚ) ^ fp.length))

/-- Model of the JS builtin `parseInt(s, 10)`: skip leading whitespace,
optional sign, then the longest prefix of decimal digits; NaN when there is
no digit. -/
def parseIntJS (s : String) : JSNum :=
  let cs := s.toList.dropWhile isWS
  let sgn : ℚ := match cs with
    | '-' :: _ => -1
    | _ => 1
  let cs1 : List Char := match cs with
    | '-' :: r => r
    | '+' :: r => r
    | _ => cs
  let ds := cs1.takeWhile Char.isDigit
  if ds.isEmpty then JSNum.nan
  else JSNum.num (sgn * (digitsToNat ds : ℚ))

/-- Model of JS `Number.prototype.toFixed(2)` on a finite (rational) value:
round the magnitude to the nearest hundredth (half away from zero) and print
sign, integer part, a dot and exactly two fraction digits. -/
def toFixed2 (q : ℚ) : String :=
  let neg : Bool := decide (q.num < 0)
  let a := q.num.natAbs
  let b := q.den
  let n : Nat := (200 * a + b) / (2 * b)
  let ip := n / 100
  let fp := n % 100
  (if neg then "-" else "") ++ toString ip ++ "." ++
    (if fp < 10 then "0" else "") ++ toString fp

/-- Last-wins association lookup, matching how `JSON.parse` resolves
duplicate keys in an object. -/
def jsLookup (fields : List (String × JSVal)) (key : String) : Option JSVal :=
  fields.foldl (fun acc p => if p.1 = key then some p.2 else acc) none

/-- Model of JS property access `v[key]`: reading a property of `null`
throws a TypeError, reading a missing property of an object (or any property
of a primitive) yields `undefined`, modelled as `none`. -/
def getProp (v : JSVal) (key : String) : Except String (Option JSVal) :=
  match v with
  | JSVal.null => Except.error ("TypeError: Cannot read properties of null, reading " ++ key)
  | JSVal.obj fields => Except.ok (jsLookup fields key)
  | _ => Except.ok none

/-- Decimal rendering of a rational whose denominator is 1, for the model of
JS string interpolation of integral numbers. -/
def intDisplay (i : Int) : String :=
  (if i < 0 then "-" else "") ++ toString i.natAbs

/-- Model of JS ToString on a number: exact on NaN and on integral values;
non-integral values are approximated by their two-decimal rendering (no
claim evaluates this case). -/
def jsNumDisplay : JSNum → String
  | JSNum.nan => "NaN"
  | JSNum.num q => if q.den = 1 then intDisplay q.num else toFixed2 q

/-- Model of JS string interpolation of a value, as used by the template
literals in the script.  Arrays are approximated by the empty string (no
claim evaluates that case). -/
def jsDisplay : JSVal → String
  | JSVal.null => "null"
  | JSVal.bool true => "true"
  | JSVal.bool false => "false"
  | JSVal.num x => jsNumDisplay x
  | JSVal.str s => s
  | JSVal.arr _ => ""
  | JSVal.obj _ => "[object Object]"

/-- Interpolation of a possibly-`undefined` property value: JS prints the
string `"undefined"` for `undefined`. -/
def jsDisplayOpt : Option JSVal → String
  | none => "undefined"
  | some v => jsDisplay v

/-- The text-input values the script reads from the page: the eight base
fields (lines 15-22), the feature selector (line 68 via `featureSelect`),
and the sweep controls (lines 60-65). -/
structure Dom where
  med_inc : String
  house_age : String
  ave_rooms : String
  ave_bedrooms : String
  population : String
  ave_occup : String
  latitude : String
  longitude : String
  feature_name : String
  min_value : String
  max_value : String
  num_points : String

/-- The eight-field record built by `getBaseInput` (script.js lines 13-24);
each field is the `parseFloat` of the corresponding input's value. -/
structure BaseInput where
  med_inc : JSNum
  house_age : JSNum
  ave_rooms : JSNum
  ave_bedrooms : JSNum
  population : JSNum
  ave_occup : JSNum
  latitude : JSNum
  longitude : JSNum
deriving DecidableEq

/-- `getBaseInput` (script.js lines 13-24): read the eight inputs and parse
each with `parseFloat`.  Total: a blank or non-numeric field yields NaN, no
exception is raised. -/
def getBaseInput (dom : Dom) : BaseInput where
  med_inc := parseFloatJS dom.med_inc
  house_age := parseFloatJS dom.house_age
  ave_rooms := parseFloatJS dom.ave_rooms
  ave_bedrooms := parseFloatJS dom.ave_bedrooms
  population := parseFloatJS dom.population
  ave_occup := parseFloatJS dom.ave_occup
  latitude := parseFloatJS dom.latitude
  longitude := parseFloatJS dom.longitude

/-- The JS object literal returned by `getBaseInput`, as the value handed to
`JSON.stringify` for the request body (field order as in the source). -/
def jsonOfBaseInput (b : BaseInput) : JSVal :=
  JSVal.obj [
    ("med_inc", JSVal.num b.med_inc),
    ("house_age", JSVal.num b.house_age),
    ("ave_rooms", JSVal.num b.ave_rooms),
    ("ave_bedrooms", JSVal.num b.ave_bedrooms),
    ("population", JSVal.num b.population),
    ("ave_occup", JSVal.num b.ave_occup),
    ("latitude", JSVal.num b.latitude),
    ("longitude", JSVal.num b.longitude)]

/-- The configuration object passed to `new Chart(ctx, ...)` in
`renderChart` (script.js lines 107-141), flattened to its leaves. -/
structure ChartConfig where
  chartType : String
  labels : List String
  datasetLabel : String
  data : List JSNum
  fill : Bool
  tension : ℚ
  responsive : Bool
  interactionMode : String
  intersect : Bool
  xTitle : String
  xTitleDisplay : Bool
  yTitle : String
  yTitleDisplay : Bool
deriving DecidableEq

/-- Lifecycle events of chart instances, recorded in order: `destroyed i`
when `priceChart.destroy()` runs on instance `i`, `created i` when
`new Chart(...)` constructs instance `i`. -/
inductive ChartEvent where
  | destroyed (id : Nat) : ChartEvent
  | created (id : Nat) : ChartEvent
deriving DecidableEq

/-- The page's mutable state: visibility (`hidden` class) and text of the
error and result regions, the predicted-price text, the single chart slot
`priceChart` (line 10) holding the live instance's identifier and
configuration, a counter supplying fresh instance identifiers, and the
lifecycle trace of chart instances. -/
structure PageState where
  errorHidden : Bool
  resultHidden : Bool
  errorText : String
  predictedText : String
  chart : Option (Nat × ChartConfig)
  nextChartId : Nat
  trace : List ChartEvent
deriving DecidableEq

/-- Write a message to the shared error region and reveal it
(script.js lines 50-51 and 90-91). -/
def showError (st : PageState) (msg : String) : PageState :=
  { st with errorText := msg, errorHidden := false }

/-- The HTTP request a handler issues: URL, method and the JS object passed
to `JSON.stringify` as the body. -/
structure Request where
  url : String
  method : String
  body : JSVal

/-- Outcome of the single `fetch` a handler awaits: either the promise
rejects (network/transport failure, message of the thrown error), or a
response arrives with its `ok` flag, the text of its body, and the result
of parsing that body as JSON (`Except.error` models a rejecting
`response.json()`). -/
inductive Fetched where
  | netError (msg : String) : Fetched
  | resp (okFlag : Bool) (text : String) (json : Except String JSVal) : Fetched

/-- Fallback error message for `/predict_price` (script.js line 43): JS
`text || fallback` picks it exactly when the body text is empty. -/
def predictFallback : String := "Error en la llamada a /predict_price"

/-- Fallback error message for `/feature_curve` (script.js line 84). -/
def curveFallback : String := "Error en la llamada a /feature_curve"

/-- One element of `curveData.x_values.map((v) => v.toFixed(2))`
(script.js line 99): numbers format with `toFixed` (NaN formats as
`"NaN"`); any non-number element lacks a `toFixed` method, so the callback
throws. -/
def jsToFixed2 : JSVal → Except String String
  | JSVal.num JSNum.nan => Except.ok "NaN"
  | JSVal.num (JSNum.num q) => Except.ok (toFixed2 q)
  | _ => Except.error "TypeError: v.toFixed is not a function"

/-- One element of `curveData.prices.map((p) => p / 1000)` (script.js
line 101).  JS division coerces its operand with ToNumber and never throws:
`null` coerces to 0, booleans to 0/1; other non-number operands are
approximated as NaN (no claim evaluates them). -/
def jsDiv1000 : JSVal → JSNum
  | JSVal.num JSNum.nan => JSNum.nan
  | JSVal.num (JSNum.num q) => JSNum.num (mkRat q.num (q.den * 1000))
  | JSVal.null => JSNum.num 0
  | JSVal.bool b => JSNum.num (mkRat (if b then 1 else 0) 1000)
  | _ => JSNum.nan

/-- Left-to-right traversal of `Array.prototype.map` with a callback that
may throw: stops at the first throwing element. -/
def mapExcept (f : JSVal → Except String String) : List JSVal → Except String (List String)
  | [] => Except.ok []
  | v :: vs =>
    match f v with
    | Except.error e => Except.error e
    | Except.ok s =>
      match mapExcept f vs with
      | Except.error e => Except.error e
      | Except.ok rest => Except.ok (s :: rest)

/-- Lines 99-101 of `renderChart`: compute the labels from
`curveData.x_values` and the data series from `curveData.prices`.  When a
field is missing or not an array, calling `.map` on it throws; this happens
before the chart slot is touched. -/
def computeChartData (curveData : JSVal) : Except String (List String × List JSNum) :=
  match getProp curveData "x_values" with
  | Except.error e => Except.error e
  | Except.ok xsOpt =>
    match xsOpt with
    | some (JSVal.arr xs) =>
      match mapExcept jsToFixed2 xs with
      | Except.error e => Except.error e
      | Except.ok labels =>
        match getProp curveData "prices" with
        | Except.error e => Except.error e
        | Except.ok psOpt =>
          match psOpt with
          | some (JSVal.arr ps) => Except.ok (labels, ps.map jsDiv1000)
          | _ => Except.error "TypeError: curveData.prices.map is not a function"
    | _ => Except.error "TypeError: curveData.x_values.map is not a function"

/-- `renderChart` (script.js lines 96-142): compute labels and data; then,
if the slot holds a chart, destroy it; then construct the new chart from
the configuration literal of lines 107-141 and store it in the slot.  A
throw in the label/data computation aborts before the destroy step. -/
def renderChart (st : PageState) (curveData : JSVal) : Except String PageState :=
  match computeChartData curveData with
  | Except.error e => Except.error e
  | Except.ok ld =>
    let st1 : PageState :=
      match st.chart with
      | some c => { st with chart := none, trace := st.trace ++ [ChartEvent.destroyed c.1] }
      | none => st
    match getProp curveData "feature_name" with
    | Except.error e => Except.error e
    | Except.ok fOpt =>
      let featName := jsDisplayOpt fOpt
      let cfg : ChartConfig := {
        chartType := "line",
        labels := ld.1,
        datasetLabel := "Precio (miles de $) vs " ++ featName,
        data := ld.2,
        fill := false,
        tension := mkRat 1 5,
        responsive := true,
        interactionMode := "index",
        intersect := false,
        xTitle := featName,
        xTitleDisplay := true,
        yTitle := "Precio estimado (miles de $)",
        yTitleDisplay := true }
      Except.ok { st1 with
        chart := some (st1.nextChartId, cfg),
        nextChartId := st1.nextChartId + 1,
        trace := st1.trace ++ [ChartEvent.created st1.nextChartId] }

/-- The request the submit handler issues (script.js lines 35-39): POST the
collected `BaseInput` to `/predict_price`. -/
def submitRequest (dom : Dom) : Request :=
  { url := "/predict_price", method := "POST", body := jsonOfBaseInput (getBaseInput dom) }

/-- Response processing of the submit handler (script.js lines 41-52),
starting from the state in which both regions were hidden: a rejected fetch
is caught and displayed; a non-ok status throws `text || fallback`, caught
and displayed; a JSON parse failure is caught and displayed; otherwise the
`predicted_price_formatted` property is interpolated into the result text
and the result region is revealed. -/
def submitRespond (st : PageState) (f : Fetched) : PageState :=
  match f with
  | Fetched.netError msg => showError st msg
  | Fetched.resp okFlag text json =>
    if !okFlag then
      showError st (if text = "" then predictFallback else text)
    else
      match json with
      | Except.error msg => showError st msg
      | Except.ok j =>
        match getProp j "predicted_price_formatted" with
        | Except.error msg => showError st msg
        | Except.ok v =>
          { st with
            predictedText := "Precio estimado: " ++ jsDisplayOpt v,
            resultHidden := false }

/-- The form submit handler (script.js lines 27-53): hide the error and
result regions, collect the base input, issue the POST, and process the
outcome.  Returns the new page state and the request issued. -/
def submitHandler (dom : Dom) (st : PageState) (f : Fetched) : PageState × Request :=
  (submitRespond { st with errorHidden := true, resultHidden := true } f,
   submitRequest dom)

/-- The request the curve handler issues (script.js lines 59-80): the
payload object of lines 67-73 POSTed to `/feature_curve`. -/
def curveRequest (dom : Dom) : Request :=
  { url := "/feature_curve", method := "POST",
    body := JSVal.obj [
      ("feature_name", JSVal.str dom.feature_name),
      ("base", jsonOfBaseInput (getBaseInput dom)),
      ("min_value", JSVal.num (parseFloatJS dom.min_value)),
      ("max_value", JSVal.num (parseFloatJS dom.max_value)),
      ("num_points", JSVal.num (parseIntJS dom.num_points))] }

/-- Response processing of the curve handler (script.js lines 82-92),
starting from the state in which the error region was hidden: failures
mirror the submit handler with the `/feature_curve` fallback; on success
the parsed JSON is handed to `renderChart`, whose throw is caught and
displayed. -/
def curveRespond (st : PageState) (f : Fetched) : PageState :=
  match f with
  | Fetched.netError msg => showError st msg
  | Fetched.resp okFlag text json =>
    if !okFlag then
      showError st (if text = "" then curveFallback else text)
    else
      match json with
      | Except.error msg => showError st msg
      | Except.ok j =>
        match renderChart st j with
        | Except.error msg => showError st msg
        | Except.ok st' => st'

/-- The curve-button click handler (script.js lines 56-93): hide the error
region (the result region is not touched), collect the inputs, issue the
POST, and process the outcome. -/
def curveHandler (dom : Dom) (st : PageState) (f : Fetched) : PageState × Request :=
  (curveRespond { st with errorHidden := true } f, curveRequest dom)

/-- A well-typed curve response as described by the backend contract:
`feature_name` a string and `x_values`, `prices` parallel numeric
sequences. -/
structure CurveResponse where
  feature_name : String
  x_values : List ℚ
  prices : List ℚ

/-- The JSON object carrying a `CurveResponse`. -/
def CurveResponse.toJSVal (c : CurveResponse) : JSVal :=
  JSVal.obj [
    ("feature_name", JSVal.str c.feature_name),
    ("x_values", JSVal.arr (c.x_values.map (fun q => JSVal.num (JSNum.num q)))),
    ("prices", JSVal.arr (c.prices.map (fun q => JSVal.num (JSNum.num q))))]

/-- The page as it first loads: both regions hidden (the `hidden` class is
present in the HTML), no chart instance (`priceChart = null`, line 10). -/
def initialPage : PageState :=
  { errorHidden := true, resultHidden := true, errorText := "", predictedText := "",
    chart := none, nextChartId := 0, trace := [] }

/-- A sample filled-in form, used to instantiate universally quantified
statements at a concrete input. -/
def sampleDom : Dom :=
  { med_inc := "8", house_age := "20", ave_rooms := "6", ave_bedrooms := "1",
    population := "300", ave_occup := "3", latitude := "34", longitude := "-118",
    feature_name := "med_inc", min_value := "0", max_value := "15", num_points := "50" }

/-- `sampleDom` with the `med_inc` field left blank. -/
def sampleDomBlank : Dom :=
  { sampleDom with med_inc := "" }

/-- The curve response of the spec's concrete example:
`feature_name "med_inc"`, `x_values [1, 2]`, `prices [100000, 200000]`. -/
def sampleCurve : CurveResponse :=
  { feature_name := "med_inc", x_values := [1, 2], prices := [100000, 200000] }

/-- Whether the submit handler's `try` block runs to completion for a given
fetch outcome: the response arrived, `ok` is set, the body parsed as JSON,
and reading `predicted_price_formatted` did not throw (it throws only on a
`null` root). -/
def submitSucceeds (f : Fetched) : Bool :=
  match f with
  | Fetched.resp true _ (Except.ok j) =>
    match getProp j "predicted_price_formatted" with
    | Except.ok _ => true
    | Except.error _ => false
  | _ => false

/-- Whether the curve handler's `try` block runs to completion: the
response arrived with `ok`, the body parsed, and `renderChart` did not
throw (its label/data computation succeeded). -/
def curveSucceeds (f : Fetched) : Bool :=
  match f with
  | Fetched.resp true _ (Except.ok j) =>
    match computeChartData j with
    | Except.ok _ => true
    | Except.error _ => false
  | _ => false

/-- A page already showing a prediction result, to instantiate frame
properties at a state with a visible result region. -/
def resultShownPage : PageState :=
  { initialPage with resultHidden := false, predictedText := "Precio estimado: $250,000" }

/-- The page after one successful curve render from a fresh page: its slot
holds chart instance 0. -/
def pageAfterCurve : PageState :=
  (curveHandler sampleDom initialPage
    (Fetched.resp true "" (Except.ok sampleCurve.toJSVal))).1

/-- The chart configuration produced by rendering `sampleCurve` on a fresh
page, written out as a literal. -/
def demoCfg : ChartConfig :=
  { chartType := "line", labels := ["1.00", "2.00"],
    datasetLabel := "Precio (miles de $) vs med_inc",
    data := [JSNum.num 100, JSNum.num 200], fill := false, tension := mkRat 1 5,
    responsive := true, interactionMode := "index", intersect := false,
    xTitle := "med_inc", xTitleDisplay := true,
    yTitle := "Precio estimado (miles de $)", yTitleDisplay := true }

/-- A page whose slot holds chart instance 0 with `demoCfg`. -/
def demoChartPage : PageState :=
  { initialPage with
      chart := some (0, demoCfg)
      nextChartId := 1
      trace := [ChartEvent.created 0] }

/-! ### Helper lemmas -/

/-- The fraction `mkRat q.num (q.den * 1000)` computed by `jsDiv1000` is
exactly the rational division `q / 1000`. -/
theorem jsDiv1000_eq_div (q : ℚ) :
    jsDiv1000 (JSVal.num (JSNum.num q)) = JSNum.num (q / 1000) := by
  show JSNum.num (mkRat q.num (q.den * 1000)) = JSNum.num (q / 1000)
  rw [Rat.mkRat_eq_div]
  push_cast
  rw [div_mul_eq_div_div, Rat.num_div_den]

/-- Mapping `toFixed(2)` over a list of finite numbers never throws and
formats each element. -/
theorem mapExcept_toFixed2_nums (qs : List ℚ) :
    mapExcept jsToFixed2 (qs.map (fun q => JSVal.num (JSNum.num q))) =
      Except.ok (qs.map toFixed2) := by
  induction qs with
  | nil => rfl
  | cons q qs ih => simp [mapExcept, jsToFixed2, ih]

/-- On a well-typed curve response the label/data computation succeeds and
produces the formatted x-values and the prices divided by 1000. -/
theorem computeChartData_toJSVal (c : CurveResponse) :
    computeChartData c.toJSVal =
      Except.ok (c.x_values.map toFixed2, c.prices.map (fun q => JSNum.num (q / 1000))) := by
  simp [computeChartData, CurveResponse.toJSVal, getProp, jsLookup,
    mapExcept_toFixed2_nums, jsDiv1000_eq_div]

/-- When the label/data computation of `renderChart` succeeds the response
value is not `null`, so reading its `feature_name` property cannot throw. -/
theorem getProp_featureName_ok (j : JSVal) (ld : List String × List JSNum)
    (hcd : computeChartData j = Except.ok ld) :
    ∃ w, getProp j "feature_name" = Except.ok w := by
  cases j with
  | null => simp [computeChartData, getProp] at hcd
  | bool b => exact ⟨_, rfl⟩
  | num x => exact ⟨_, rfl⟩
  | str s => exact ⟨_, rfl⟩
  | arr xs => exact ⟨_, rfl⟩
  | obj fields => exact ⟨_, rfl⟩

/-- When the label/data computation succeeds, `renderChart` runs to
completion and does not touch the error region. -/
theorem renderChart_ok_of_compute (st : PageState) (j : JSVal)
    (ld : List String × List JSNum) (hcd : computeChartData j = Except.ok ld) :
    ∃ st', renderChart st j = Except.ok st' ∧ st'.errorHidden = st.errorHidden := by
  obtain ⟨w, hw⟩ := getProp_featureName_ok j ld hcd
  unfold renderChart
  rw [hcd]
  cases hch : st.chart with
  | none => rw [hw]; exact ⟨_, rfl, rfl⟩
  | some c => rw [hw]; exact ⟨_, rfl, rfl⟩

/-!  The claim theorems follow. -/

/-! ### Claims -/

/-- C1: for every CurveResponse, the chart renderer produces the labels by
formatting each element of `x_values` to two decimal places and the data
series by dividing each element of `prices` by 1000; in particular, for
`{feature_name: "med_inc", x_values: [1, 2], prices: [100000, 200000]}` it
produces labels `["1.00", "2.00"]` and data `[100, 200]`. -/
theorem renderChart_labels_and_data :
    (∀ (st : PageState) (c : CurveResponse),
      ∃ st', renderChart st c.toJSVal = Except.ok st' ∧
        ∃ cid cfg, st'.chart = some (cid, cfg) ∧
          cfg.labels = c.x_values.map toFixed2 ∧
          cfg.data = c.prices.map (fun q => JSNum.num (q / 1000))) ∧
    (∀ st : PageState,
      ∃ st', renderChart st sampleCurve.toJSVal = Except.ok st' ∧
        ∃ cid cfg, st'.chart = some (cid, cfg) ∧
          cfg.labels = ["1.00", "2.00"] ∧
          cfg.data = [JSNum.num 100, JSNum.num 200]) := by
  have main : ∀ (st : PageState) (c : CurveResponse),
      ∃ st', renderChart st c.toJSVal = Except.ok st' ∧
        ∃ cid cfg, st'.chart = some (cid, cfg) ∧
          cfg.labels = c.x_values.map toFixed2 ∧
          cfg.data = c.prices.map (fun q => JSNum.num (q / 1000)) := by
    intro st c
    unfold renderChart
    rw [computeChartData_toJSVal]
    cases hc : st.chart with
    | none => exact ⟨_, rfl, _, _, rfl, rfl, rfl⟩
    | some c0 => exact ⟨_, rfl, _, _, rfl, rfl, rfl⟩
  refine ⟨main, fun st => ?_⟩
  obtain ⟨st', hrun, cid, cfg, hchart, hl, hd⟩ := main st sampleCurve
  refine ⟨st', hrun, cid, cfg, hchart, ?_, ?_⟩
  · rw [hl]
    decide
  · rw [hd]
    norm_num [sampleCurve]

/-- C2: for both handlers, a non-success HTTP status displays the response
body text in the shared error region, falling back to the handler's fixed
generic message when the body is empty; in particular a non-2xx response
with body "bad input" makes the error region visible displaying
"bad input". -/
theorem nonOk_status_shows_body_text :
    (∀ (dom : Dom) (st : PageState) (t : String) (j : Except String JSVal),
      ((submitHandler dom st (Fetched.resp false t j)).1.errorHidden = false ∧
       (submitHandler dom st (Fetched.resp false t j)).1.errorText =
         (if t = "" then predictFallback else t)) ∧
      ((curveHandler dom st (Fetched.resp false t j)).1.errorHidden = false ∧
       (curveHandler dom st (Fetched.resp false t j)).1.errorText =
         (if t = "" then curveFallback else t))) ∧
    ((submitHandler sampleDom initialPage
        (Fetched.resp false "bad input" (Except.ok JSVal.null))).1.errorHidden = false ∧
     (submitHandler sampleDom initialPage
        (Fetched.resp false "bad input" (Except.ok JSVal.null))).1.errorText = "bad input" ∧
     (curveHandler sampleDom initialPage
        (Fetched.resp false "bad input" (Except.ok JSVal.null))).1.errorHidden = false ∧
     (curveHandler sampleDom initialPage
        (Fetched.resp false "bad input" (Except.ok JSVal.null))).1.errorText = "bad input") := by
  refine ⟨fun dom st t j => ⟨⟨rfl, rfl⟩, ⟨rfl, rfl⟩⟩, rfl, ?_, rfl, ?_⟩ <;> decide

/-- C3 counterexample: a success response whose JSON lacks
`predicted_price_formatted` — failure class (d) of the taxonomy — does not
collapse into the error outcome: the prediction handler performs a success
rendering, revealing the result region with the text
"Precio estimado: undefined" while the error region stays hidden. -/
theorem missing_predicted_field_renders_success :
    (submitHandler sampleDom initialPage
       (Fetched.resp true "" (Except.ok (JSVal.obj [])))).1.resultHidden = false ∧
    (submitHandler sampleDom initialPage
       (Fetched.resp true "" (Except.ok (JSVal.obj [])))).1.errorHidden = true ∧
    (submitHandler sampleDom initialPage
       (Fetched.resp true "" (Except.ok (JSVal.obj [])))).1.predictedText =
      "Precio estimado: undefined" := by
  exact ⟨rfl, rfl, by decide⟩

/-- C3 (amended): network failure, non-success status and malformed JSON
collapse into the generic error outcome for both handlers, and a curve
response missing its curve fields does so for the curve handler (error
region shown, no success rendering: result stays hidden after submit, the
chart slot is unchanged after curve).  A success response missing
`predicted_price_formatted` is NOT detected by the prediction handler: it
performs a success rendering with the text "Precio estimado: undefined". -/
theorem error_taxonomy_collapse :
    (∀ (dom : Dom) (st : PageState) (msg : String),
      (submitHandler dom st (Fetched.netError msg)).1.errorHidden = false ∧
      (submitHandler dom st (Fetched.netError msg)).1.errorText = msg ∧
      (submitHandler dom st (Fetched.netError msg)).1.resultHidden = true ∧
      (curveHandler dom st (Fetched.netError msg)).1.errorHidden = false ∧
      (curveHandler dom st (Fetched.netError msg)).1.errorText = msg ∧
      (curveHandler dom st (Fetched.netError msg)).1.chart = st.chart) ∧
    (∀ (dom : Dom) (st : PageState) (t : String) (j : Except String JSVal),
      (submitHandler dom st (Fetched.resp false t j)).1.errorHidden = false ∧
      (submitHandler dom st (Fetched.resp false t j)).1.resultHidden = true ∧
      (curveHandler dom st (Fetched.resp false t j)).1.errorHidden = false ∧
      (curveHandler dom st (Fetched.resp false t j)).1.chart = st.chart) ∧
    (∀ (dom : Dom) (st : PageState) (t msg : String),
      (submitHandler dom st (Fetched.resp true t (Except.error msg))).1.errorHidden = false ∧
      (submitHandler dom st (Fetched.resp true t (Except.error msg))).1.errorText = msg ∧
      (submitHandler dom st (Fetched.resp true t (Except.error msg))).1.resultHidden = true ∧
      (curveHandler dom st (Fetched.resp true t (Except.error msg))).1.errorHidden = false ∧
      (curveHandler dom st (Fetched.resp true t (Except.error msg))).1.errorText = msg ∧
      (curveHandler dom st (Fetched.resp true t (Except.error msg))).1.chart = st.chart) ∧
    (∀ (dom : Dom) (st : PageState) (t e : String) (j : JSVal),
      computeChartData j = Except.error e →
        (curveHandler dom st (Fetched.resp true t (Except.ok j))).1.errorHidden = false ∧
        (curveHandler dom st (Fetched.resp true t (Except.ok j))).1.errorText = e ∧
        (curveHandler dom st (Fetched.resp true t (Except.ok j))).1.chart = st.chart) ∧
    (∀ (dom : Dom) (st : PageState) (t : String) (fields : List (String × JSVal)),
      jsLookup fields "predicted_price_formatted" = none →
        (submitHandler dom st
           (Fetched.resp true t (Except.ok (JSVal.obj fields)))).1.resultHidden = false ∧
        (submitHandler dom st
           (Fetched.resp true t (Except.ok (JSVal.obj fields)))).1.errorHidden = true ∧
        (submitHandler dom st
           (Fetched.resp true t (Except.ok (JSVal.obj fields)))).1.predictedText =
          "Precio estimado: undefined") := by
  refine ⟨fun dom st msg => ⟨rfl, rfl, rfl, rfl, rfl, rfl⟩,
          fun dom st t j => ⟨rfl, rfl, rfl, rfl⟩,
          fun dom st t msg => ⟨rfl, rfl, rfl, rfl, rfl, rfl⟩,
          fun dom st t e j h => ?_,
          fun dom st t fields h => ?_⟩
  · simp [curveHandler, curveRespond, renderChart, h, showError]
  · simp [submitHandler, submitRespond, getProp, h, jsDisplayOpt, showError]

/-- C3 witness for the amended theorem: instantiating the hypothetical
conjuncts at a response missing `x_values` (curve) and at an empty object
(prediction). -/
theorem error_taxonomy_collapse_witness :
    computeChartData (JSVal.obj [("prices", JSVal.arr [])]) =
      Except.error "TypeError: curveData.x_values.map is not a function" ∧
    jsLookup ([] : List (String × JSVal)) "predicted_price_formatted" = none ∧
    (curveHandler sampleDom initialPage
       (Fetched.resp true ""
         (Except.ok (JSVal.obj [("prices", JSVal.arr [])])))).1.errorHidden = false ∧
    (submitHandler sampleDom initialPage
       (Fetched.resp true "" (Except.ok (JSVal.obj [])))).1.resultHidden = false := by
  refine ⟨rfl, rfl, ?_, ?_⟩
  · exact (error_taxonomy_collapse.2.2.2.1 sampleDom initialPage ""
      "TypeError: curveData.x_values.map is not a function"
      (JSVal.obj [("prices", JSVal.arr [])]) rfl).1
  · exact (error_taxonomy_collapse.2.2.2.2 sampleDom initialPage "" [] rfl).1

/-- C4: after every run of the submit handler exactly one of the result
and error regions is visible: on a completed success the result region is
shown and the error region hidden, on any caught error the error region is
shown and the result region hidden. -/
theorem submit_exactly_one_region_visible :
    ∀ (dom : Dom) (st : PageState) (f : Fetched),
      ((submitHandler dom st f).1.errorHidden = !(submitHandler dom st f).1.resultHidden) ∧
      (submitSucceeds f = true →
        (submitHandler dom st f).1.resultHidden = false ∧
        (submitHandler dom st f).1.errorHidden = true) ∧
      (submitSucceeds f = false →
        (submitHandler dom st f).1.errorHidden = false ∧
        (submitHandler dom st f).1.resultHidden = true) := by
  intro dom st f
  match f with
  | Fetched.netError msg => exact ⟨rfl, fun h => by simp [submitSucceeds] at h, fun _ => ⟨rfl, rfl⟩⟩
  | Fetched.resp false t json => exact ⟨rfl, fun h => by simp [submitSucceeds] at h, fun _ => ⟨rfl, rfl⟩⟩
  | Fetched.resp true t (Except.error msg) =>
    exact ⟨rfl, fun h => by simp [submitSucceeds] at h, fun _ => ⟨rfl, rfl⟩⟩
  | Fetched.resp true t (Except.ok j) =>
    cases hg : getProp j "predicted_price_formatted" with
    | error msg =>
      refine ⟨?_, fun h => ?_, fun _ => ?_⟩ <;>
        simp_all [submitHandler, submitRespond, submitSucceeds, hg, showError]
    | ok v =>
      refine ⟨?_, fun _ => ?_, fun h => ?_⟩ <;>
        simp_all [submitHandler, submitRespond, submitSucceeds, hg, showError]

/-- C4 witness: a concrete success run shows the result region and hides
the error region. -/
theorem submit_exactly_one_region_visible_witness :
    submitSucceeds (Fetched.resp true ""
      (Except.ok (JSVal.obj [("predicted_price_formatted", JSVal.str "$250,000")]))) = true ∧
    (submitHandler sampleDom initialPage (Fetched.resp true ""
      (Except.ok (JSVal.obj [("predicted_price_formatted",
        JSVal.str "$250,000")])))).1.resultHidden = false ∧
    (submitHandler sampleDom initialPage (Fetched.resp true ""
      (Except.ok (JSVal.obj [("predicted_price_formatted",
        JSVal.str "$250,000")])))).1.errorHidden = true := by
  refine ⟨by decide, ?_⟩
  exact (submit_exactly_one_region_visible sampleDom initialPage _).2.1 (by decide)

/-- C5: a success response carrying `predicted_price_formatted` makes the
result region visible displaying the value prefixed with the fixed label
"Precio estimado: ", while the error region remains hidden. -/
theorem submit_success_displays_price (dom : Dom) (st : PageState) (t s : String) (j : JSVal)
    (h : getProp j "predicted_price_formatted" = Except.ok (some (JSVal.str s))) :
    (submitHandler dom st (Fetched.resp true t (Except.ok j))).1.predictedText =
      "Precio estimado: " ++ s ∧
    (submitHandler dom st (Fetched.resp true t (Except.ok j))).1.resultHidden = false ∧
    (submitHandler dom st (Fetched.resp true t (Except.ok j))).1.errorHidden = true := by
  simp [submitHandler, submitRespond, h, jsDisplayOpt, jsDisplay]

/-- C5 witness: the response with `predicted_price_formatted` equal to `"$250,000"`
yields the visible result text "Precio estimado: $250,000". -/
theorem submit_success_displays_price_witness :
    getProp (JSVal.obj [("predicted_price_formatted", JSVal.str "$250,000")])
        "predicted_price_formatted" = Except.ok (some (JSVal.str "$250,000")) ∧
    (submitHandler sampleDom initialPage (Fetched.resp true ""
      (Except.ok (JSVal.obj [("predicted_price_formatted",
        JSVal.str "$250,000")])))).1.predictedText = "Precio estimado: $250,000" ∧
    (submitHandler sampleDom initialPage (Fetched.resp true ""
      (Except.ok (JSVal.obj [("predicted_price_formatted",
        JSVal.str "$250,000")])))).1.resultHidden = false := by
  refine ⟨rfl, ?_, ?_⟩
  · rw [(submit_success_displays_price sampleDom initialPage "" "$250,000"
      (JSVal.obj [("predicted_price_formatted", JSVal.str "$250,000")]) rfl).1]
    decide
  · exact (submit_success_displays_price sampleDom initialPage "" "$250,000"
      (JSVal.obj [("predicted_price_formatted", JSVal.str "$250,000")]) rfl).2.1

/-- C6: the submit handler always issues the POST to `/predict_price` with
the collected `BaseInput` as its body — the input collector is total, so a
blank field raises no exception but is forwarded as NaN in its slot. -/
theorem submit_posts_collected_input (dom : Dom) (st : PageState) (f : Fetched) :
    (submitHandler dom st f).2.url = "/predict_price" ∧
    (submitHandler dom st f).2.method = "POST" ∧
    (submitHandler dom st f).2.body = jsonOfBaseInput (getBaseInput dom) ∧
    (dom.med_inc = "" → (getBaseInput dom).med_inc = JSNum.nan) := by
  refine ⟨rfl, rfl, rfl, fun h => ?_⟩
  rw [show (getBaseInput dom).med_inc = parseFloatJS dom.med_inc from rfl, h]
  decide

/-- C6 witness: a form whose `med_inc` field is blank still produces the
POST, with NaN in the `med_inc` slot. -/
theorem submit_posts_collected_input_witness :
    sampleDomBlank.med_inc = "" ∧
    (submitHandler sampleDomBlank initialPage (Fetched.netError "Failed to fetch")).2.url =
      "/predict_price" ∧
    (getBaseInput sampleDomBlank).med_inc = JSNum.nan := by
  refine ⟨rfl, ?_, ?_⟩
  · exact (submit_posts_collected_input sampleDomBlank initialPage
      (Fetched.netError "Failed to fetch")).1
  · exact (submit_posts_collected_input sampleDomBlank initialPage
      (Fetched.netError "Failed to fetch")).2.2.2 rfl

/-- C7: on every successful render from a state whose slot holds a chart,
the old instance is destroyed strictly before the replacement is
constructed (the lifecycle trace gains `destroyed old` and then
`created new`), and the slot ends up holding exactly the new instance. -/
theorem chart_destroyed_before_replacement (st : PageState) (d : JSVal) (st' : PageState)
    (cid : Nat) (cfg : ChartConfig)
    (hchart : st.chart = some (cid, cfg))
    (hrun : renderChart st d = Except.ok st') :
    st'.trace = st.trace ++ [ChartEvent.destroyed cid, ChartEvent.created st.nextChartId] ∧
    st'.chart.map Prod.fst = some st.nextChartId := by
  unfold renderChart at hrun
  cases hcd : computeChartData d with
  | error e => rw [hcd] at hrun; exact absurd hrun (by simp)
  | ok ld =>
    rw [hcd] at hrun
    cases hf : getProp d "feature_name" with
    | error e => rw [hchart, hf] at hrun; exact absurd hrun (by simp)
    | ok fOpt =>
      rw [hchart, hf] at hrun
      simp only [Except.ok.injEq] at hrun
      subst hrun
      simp

/-- C7 witness: rendering onto a page whose slot holds chart instance 0
appends `destroyed 0` and then `created 1` to the trace; and triggering
the curve action twice in succession from a fresh page yields the trace
created 0, destroyed 0, created 1, with instance 1 live. -/
theorem chart_destroyed_before_replacement_witness :
    demoChartPage.chart = some (0, demoCfg) ∧
    (match renderChart demoChartPage sampleCurve.toJSVal with
      | Except.ok st' => st'.trace
      | Except.error _ => []) =
      demoChartPage.trace ++
        [ChartEvent.destroyed 0, ChartEvent.created demoChartPage.nextChartId] ∧
    ((curveHandler sampleDom
        (curveHandler sampleDom initialPage
          (Fetched.resp true "" (Except.ok sampleCurve.toJSVal))).1
        (Fetched.resp true "" (Except.ok sampleCurve.toJSVal))).1.trace =
      [ChartEvent.created 0, ChartEvent.destroyed 0, ChartEvent.created 1]) ∧
    ((curveHandler sampleDom
        (curveHandler sampleDom initialPage
          (Fetched.resp true "" (Except.ok sampleCurve.toJSVal))).1
        (Fetched.resp true "" (Except.ok sampleCurve.toJSVal))).1.chart.map Prod.fst = some 1) := by
  obtain ⟨st', hrun, heh⟩ := renderChart_ok_of_compute demoChartPage sampleCurve.toJSVal _
    (computeChartData_toJSVal sampleCurve)
  have key := chart_destroyed_before_replacement demoChartPage sampleCurve.toJSVal st'
    0 demoCfg rfl hrun
  refine ⟨rfl, ?_, by decide, by decide⟩
  rw [hrun]
  exact key.1

/-- C8: every curve-button click issues a POST to `/feature_curve` whose
body is exactly the object with the selected feature name, the freshly
collected `BaseInput`, the min and max values parsed as floats, and the
point count parsed as a base-10 integer; the handler hides the error region
first, so after a fully successful run the error region is hidden. -/
theorem curve_posts_request_shape (dom : Dom) (st : PageState) (f : Fetched) :
    (curveHandler dom st f).2 =
      { url := "/feature_curve", method := "POST",
        body := JSVal.obj [
          ("feature_name", JSVal.str dom.feature_name),
          ("base", jsonOfBaseInput (getBaseInput dom)),
          ("min_value", JSVal.num (parseFloatJS dom.min_value)),
          ("max_value", JSVal.num (parseFloatJS dom.max_value)),
          ("num_points", JSVal.num (parseIntJS dom.num_points))] } ∧
    (curveHandler dom st f).1 = curveRespond { st with errorHidden := true } f ∧
    (curveSucceeds f = true → (curveHandler dom st f).1.errorHidden = true) := by
  refine ⟨rfl, rfl, fun h => ?_⟩
  match f with
  | Fetched.netError msg => simp [curveSucceeds] at h
  | Fetched.resp false t json => simp [curveSucceeds] at h
  | Fetched.resp true t (Except.error msg) => simp [curveSucceeds] at h
  | Fetched.resp true t (Except.ok j) =>
    cases hcd : computeChartData j with
    | error e => simp [curveSucceeds, hcd] at h
    | ok ld =>
      obtain ⟨st', hrun, heh⟩ :=
        renderChart_ok_of_compute { st with errorHidden := true } j ld hcd
      show (curveRespond { st with errorHidden := true }
        (Fetched.resp true t (Except.ok j))).errorHidden = true
      simp [curveRespond, hrun, heh]

/-- C8 witness: a concrete successful curve run leaves the error region
hidden and issued the expected request. -/
theorem curve_posts_request_shape_witness :
    curveSucceeds (Fetched.resp true "" (Except.ok sampleCurve.toJSVal)) = true ∧
    (curveHandler sampleDom initialPage
      (Fetched.resp true "" (Except.ok sampleCurve.toJSVal))).1.errorHidden = true ∧
    (curveHandler sampleDom initialPage
      (Fetched.resp true "" (Except.ok sampleCurve.toJSVal))).2.url = "/feature_curve" := by
  have hs : curveSucceeds (Fetched.resp true "" (Except.ok sampleCurve.toJSVal)) = true := by
    simp [curveSucceeds, computeChartData_toJSVal]
  refine ⟨hs, ?_, ?_⟩
  · exact (curve_posts_request_shape sampleDom initialPage
      (Fetched.resp true "" (Except.ok sampleCurve.toJSVal))).2.2 hs
  · rw [(curve_posts_request_shape sampleDom initialPage
      (Fetched.resp true "" (Except.ok sampleCurve.toJSVal))).1]

/-- C9: when the curve handler takes its error path it changes only the
shared error region — the result region's visibility and text, the chart
slot, the id counter and the lifecycle trace are left exactly as they
were. -/
theorem curve_error_frame (dom : Dom) (st : PageState) (f : Fetched)
    (h : curveSucceeds f = false) :
    (curveHandler dom st f).1.resultHidden = st.resultHidden ∧
    (curveHandler dom st f).1.predictedText = st.predictedText ∧
    (curveHandler dom st f).1.chart = st.chart ∧
    (curveHandler dom st f).1.nextChartId = st.nextChartId ∧
    (curveHandler dom st f).1.trace = st.trace := by
  match f with
  | Fetched.netError msg => exact ⟨rfl, rfl, rfl, rfl, rfl⟩
  | Fetched.resp false t json => exact ⟨rfl, rfl, rfl, rfl, rfl⟩
  | Fetched.resp true t (Except.error msg) => exact ⟨rfl, rfl, rfl, rfl, rfl⟩
  | Fetched.resp true t (Except.ok j) =>
    cases hcd : computeChartData j with
    | ok ld => simp [curveSucceeds, hcd] at h
    | error e =>
      have hr : renderChart { st with errorHidden := true } j = Except.error e := by
        unfold renderChart
        rw [hcd]
      refine ⟨?_, ?_, ?_, ?_, ?_⟩ <;> simp [curveHandler, curveRespond, hr, showError]

/-- C9 witness: a network failure during the curve request leaves a
visible prediction result exactly as it was. -/
theorem curve_error_frame_witness :
    curveSucceeds (Fetched.netError "Failed to fetch") = false ∧
    (curveHandler sampleDom resultShownPage (Fetched.netError "Failed to fetch")).1.resultHidden =
      resultShownPage.resultHidden ∧
    (curveHandler sampleDom resultShownPage (Fetched.netError "Failed to fetch")).1.predictedText =
      resultShownPage.predictedText ∧
    (curveHandler sampleDom resultShownPage (Fetched.netError "Failed to fetch")).1.chart =
      resultShownPage.chart := by
  have h := curve_error_frame sampleDom resultShownPage (Fetched.netError "Failed to fetch") rfl
  exact ⟨rfl, h.1, h.2.1, h.2.2.1⟩

/-- C10: a parsed curve response lacking the `x_values` or `prices`
sequence makes the renderer throw before the destroy-and-replace step, so
the chart slot and the lifecycle trace are unchanged (the old instance is
neither destroyed nor replaced) and the curve handler catches the thrown
error and shows it in the error region. -/
theorem curve_missing_fields_leaves_chart :
    (∀ fields, jsLookup fields "x_values" = none →
      computeChartData (JSVal.obj fields) =
        Except.error "TypeError: curveData.x_values.map is not a function") ∧
    (∀ fields, jsLookup fields "prices" = none →
      ∃ e, computeChartData (JSVal.obj fields) = Except.error e) ∧
    (∀ (st : PageState) (j : JSVal) (e : String),
      computeChartData j = Except.error e → renderChart st j = Except.error e) ∧
    (∀ (dom : Dom) (st : PageState) (t e : String) (j : JSVal),
      computeChartData j = Except.error e →
        (curveHandler dom st (Fetched.resp true t (Except.ok j))).1.chart = st.chart ∧
        (curveHandler dom st (Fetched.resp true t (Except.ok j))).1.trace = st.trace ∧
        (curveHandler dom st (Fetched.resp true t (Except.ok j))).1.errorHidden = false ∧
        (curveHandler dom st (Fetched.resp true t (Except.ok j))).1.errorText = e) := by
  have hrc : ∀ (st : PageState) (j : JSVal) (e : String),
      computeChartData j = Except.error e → renderChart st j = Except.error e := by
    intro st j e h
    unfold renderChart
    rw [h]
  refine ⟨?_, ?_, hrc, ?_⟩
  · intro fields h
    simp [computeChartData, getProp, h]
  · intro fields h
    cases hx : jsLookup fields "x_values" with
    | none =>
      exact ⟨"TypeError: curveData.x_values.map is not a function",
        by simp [computeChartData, getProp, hx]⟩
    | some v =>
      cases v with
      | null =>
        exact ⟨"TypeError: curveData.x_values.map is not a function",
          by simp [computeChartData, getProp, hx]⟩
      | bool b =>
        exact ⟨"TypeError: curveData.x_values.map is not a function",
          by simp [computeChartData, getProp, hx]⟩
      | num x =>
        exact ⟨"TypeError: curveData.x_values.map is not a function",
          by simp [computeChartData, getProp, hx]⟩
      | str s2 =>
        exact ⟨"TypeError: curveData.x_values.map is not a function",
          by simp [computeChartData, getProp, hx]⟩
      | obj fs =>
        exact ⟨"TypeError: curveData.x_values.map is not a function",
          by simp [computeChartData, getProp, hx]⟩
      | arr xs =>
        cases hm : mapExcept jsToFixed2 xs with
        | error e2 => exact ⟨e2, by simp [computeChartData, getProp, hx, hm]⟩
        | ok ls =>
          exact ⟨"TypeError: curveData.prices.map is not a function",
            by simp [computeChartData, getProp, hx, hm, h]⟩
  · intro dom st t e j h
    have hr := hrc { st with errorHidden := true } j e h
    refine ⟨?_, ?_, ?_, ?_⟩ <;> simp [curveHandler, curveRespond, hr, showError]

/-- C10 witness: after a successful render, a response without `x_values`
or `prices` leaves chart instance 0 in the slot, adds no lifecycle event,
and surfaces the TypeError in the error region. -/
theorem curve_missing_fields_leaves_chart_witness :
    computeChartData (JSVal.obj [("feature_name", JSVal.str "med_inc")]) =
      Except.error "TypeError: curveData.x_values.map is not a function" ∧
    (curveHandler sampleDom pageAfterCurve (Fetched.resp true ""
      (Except.ok (JSVal.obj [("feature_name", JSVal.str "med_inc")])))).1.chart =
      pageAfterCurve.chart ∧
    (curveHandler sampleDom pageAfterCurve (Fetched.resp true ""
      (Except.ok (JSVal.obj [("feature_name", JSVal.str "med_inc")])))).1.trace =
      pageAfterCurve.trace ∧
    (curveHandler sampleDom pageAfterCurve (Fetched.resp true ""
      (Except.ok (JSVal.obj [("feature_name", JSVal.str "med_inc")])))).1.errorHidden = false := by
  have h := curve_missing_fields_leaves_chart.2.2.2 sampleDom pageAfterCurve ""
    "TypeError: curveData.x_values.map is not a function"
    (JSVal.obj [("feature_name", JSVal.str "med_inc")]) rfl
  exact ⟨rfl, h.1, h.2.1, h.2.2.1⟩

end RealEstateUI
